import Mathlib

/-!
Verification development for the `k8s-ecr-renew` controller (`src/main.go`).

The controller watches namespaces and, for each non-terminating namespace:
fetches an ECR authorization token (`getECRSecret`), builds a docker-config
pull secret from the `dockerJSONTemplate` format string, create-or-updates
the secret named `ecrsecret`, and ensures the `default` service account's
`ImagePullSecrets` list references that secret.

The embedding below models strings as Go strings (Lean `String` / `List Char`
for payload bytes), Go `error` values as `Option`/custom sums, and the
cluster / AWS API calls as oracle outcomes supplied in an `Env` record so
that the handler body (lines 152-201 of `main.go`) becomes a pure function
from `(Env, Namespace, ClusterState)` to a result, a new state and the trace
of API calls it performed.  A Go runtime panic (the out-of-range index on
the AWS response's authorization-data slice) is modelled explicitly as a
`panicked` outcome; the client-go 2.x typed Kubernetes clients, by
contrast, return a non-nil empty object alongside an error, so their
failures never panic the handler.
-/

/-- `dockerJSONTemplate` from `main.go` line 25, as the list of its bytes
(characters).  The two `%s` verbs are substituted by `fmt.Sprintf`. -/
def dockerJSONTemplate : List Char :=
  "\x7b\"auths\":\x7b\"%s\":\x7b\"auth\":\"%s\",\"email\":\"none\"\x7d\x7d\x7d".data

/-- Embedding of `fmt.Sprintf` restricted to what the template uses: scan the
format string; each `%s` verb consumes the next argument; a `%s` with no
argument left produces Go's `%!s(MISSING)` marker; every other character is
copied verbatim. -/
def sprintfS : List Char → List (List Char) → List Char
  | [], _ => []
  | '%' :: 's' :: rest, a :: args => a ++ sprintfS rest args
  | '%' :: 's' :: rest, [] => "%!s(MISSING)".data ++ sprintfS rest []
  | c :: rest, args => c :: sprintfS rest args

/-- The encoded pull-secret payload:
`fmt.Sprintf(dockerJSONTemplate, endpoint, token)` (`main.go` line 115). -/
def encodeDockerJSON (endpoint token : List Char) : List Char :=
  sprintfS dockerJSONTemplate [endpoint, token]

/-- A Kubernetes secret as the handler builds it: name, data payload (the
single `.dockerconfigjson` key's bytes) and type. -/
structure Secret where
  name : String
  data : List Char
  type : String
deriving DecidableEq, Repr

/-- One entry of the ECR `GetAuthorizationToken` response's
`AuthorizationData` list. -/
structure AuthorizationData where
  authorizationToken : List Char
  proxyEndpoint : List Char
deriving DecidableEq, Repr

/-- Embedding of `getECRSecret` (`main.go` lines 88-118).  The outcome of the
`GetAuthorizationToken` API call is passed in as `callResult`; the Go
function's return type is `*v1.Secret` with no error component, and after
merely logging a failure it indexes `result.AuthorizationData[0]`
unconditionally.  On a failed call the output's authorization-data slice is
nil, so that index — like an empty list on a nominally successful call — is
an out-of-range runtime panic, modelled as `none`. -/
def getECRSecret (_region : String)
    (callResult : Except String (List AuthorizationData))
    (secretName : String) : Option Secret :=
  match callResult with
  | .error _ => none
  | .ok [] => none
  | .ok (d :: _) =>
      some { name := secretName
             data := encodeDockerJSON d.proxyEndpoint d.authorizationToken
             type := "kubernetes.io/dockerconfigjson" }

example :
    encodeDockerJSON "E".data "T".data =
      "\x7b\"auths\":\x7b\"E\":\x7b\"auth\":\"T\",\"email\":\"none\"\x7d\x7d\x7d".data := by
  decide

/-- A namespace object as seen by the handler: its name and the optional
deletion timestamp (`ns.GetDeletionTimestamp()`; `none` means not set). -/
structure KNamespace where
  name : String
  deletionTimestamp : Option String
deriving DecidableEq, Repr

/-- The `default` service account of the namespace: only the
`ImagePullSecrets` list matters to the handler.  A `LocalObjectReference`
carries only a name, so the list entries are names. -/
structure ServiceAccount where
  imagePullSecrets : List String
deriving DecidableEq, Repr

/-- Cluster-side state for the one namespace being reconciled: the secret
stored under the fixed secret name (if any) and the `default` service
account object (if any).  A successful get hands the handler the stored
object; a failed get (or the degenerate absent-object case) hands it the
typed client's freshly allocated empty object. -/
structure ClusterState where
  secret : Option Secret
  serviceAccount : Option ServiceAccount
deriving DecidableEq, Repr

/-- A Kubernetes API error, distinguishing the not-found condition from all
other failures (permission, transport, ...).  The handler code itself only
ever tests an error against nil, never its kind. -/
inductive KubeErr
  | notFound
  | other (msg : String)
deriving DecidableEq, Repr

/-- Outcomes of the external calls the handler body performs, supplied as
oracles: the ECR `GetAuthorizationToken` call, and the error components of
each Kubernetes client call (`none` = the call succeeded). -/
structure Env where
  ecrCall : Except String (List AuthorizationData)
  secretGetErr : Option KubeErr
  secretUpdateErr : Option KubeErr
  secretCreateErr : Option KubeErr
  saGetErr : Option KubeErr
  saUpdateErr : Option KubeErr
deriving Repr

/-- The API calls the handler can perform, in the order it performs them. -/
inductive Call
  | ecrFetch
  | secretGet
  | secretUpdate
  | secretCreate
  | saGet
  | saUpdate
deriving DecidableEq, Repr

/-- The handler's outcome: the returned error value (`ok` = nil,
`err` = non-nil), or a Go runtime panic. -/
inductive HandlerResult
  | ok
  | err (msg : String)
  | panicked
deriving DecidableEq, Repr

/-- Render a `KubeErr` the way the Go code turns errors into messages. -/
def KubeErr.msg : KubeErr → String
  | .notFound => "not found"
  | .other m => m

/-- Embedding of the `ImagePullSecrets` scan-and-append of `main.go` lines
180-192: walk the list; at the first entry whose name equals `secretName`,
overwrite it with a reference of that same name and stop (`break`); if no
entry matched, append one reference named `secretName` at the end. -/
def patchRefs (secretName : String) : List String → List String
  | [] => [secretName]
  | r :: rs => if r = secretName then secretName :: rs else r :: patchRefs secretName rs

/-- Embedding of the namespace handler closure (`main.go` lines 152-201).
Returns the handler's result, the cluster state after the run, and the trace
of API calls performed.  Control flow is copied from the source:

* a set deletion timestamp falls through to the final `return nil`;
* `getECRSecret` runs first; its unconditional dereference of a failed or
  empty `AuthorizationData` is a panic;
* `Secrets.Get` decides update-vs-create on `err == nil` only; a failed
  update is logged and execution continues, while a failed create does
  `return err` with the *get* error;
* the service-account get error is compared against the earlier secret get
  error (`if err != defaultServiceErr`) and only logged; the client-go 2.x
  typed client allocates its result before the request, so a failed get
  still hands back a non-nil *empty* service account and execution
  continues, scanning that object's empty reference list;
* `ServiceAccounts.Update` is called unconditionally; its failure is the
  value returned via `fmt.Errorf`. -/
def reconcile (secretName : String) (env : Env) (ns : KNamespace)
    (st : ClusterState) : HandlerResult × ClusterState × List Call :=
  match ns.deletionTimestamp with
  | some _ => (.ok, st, [])
  | none =>
    match getECRSecret "" env.ecrCall secretName with
    | none => (.panicked, st, [.ecrFetch])
    | some newSecret =>
      let secretStep : ClusterState × List Call × Option HandlerResult :=
        match env.secretGetErr with
        | none =>
          match env.secretUpdateErr with
          | none => ({ st with secret := some newSecret },
                     [Call.secretGet, Call.secretUpdate], none)
          | some _ => (st, [Call.secretGet, Call.secretUpdate], none)
        | some ge =>
          match env.secretCreateErr with
          | none => ({ st with secret := some newSecret },
                     [Call.secretGet, Call.secretCreate], none)
          | some _ => (st, [Call.secretGet, Call.secretCreate],
                       some (HandlerResult.err ge.msg))
      match secretStep with
      | (st1, tr1, some r) => (r, st1, Call.ecrFetch :: tr1)
      | (st1, tr1, none) =>
        let sa : ServiceAccount :=
          match env.saGetErr, st1.serviceAccount with
          | none, some sa => sa
          | _, _ => { imagePullSecrets := [] }
        let newRefs := patchRefs newSecret.name sa.imagePullSecrets
        match env.saUpdateErr with
        | some ue =>
            (.err ("Could update ServiceAccount! " ++ ue.msg), st1,
             Call.ecrFetch :: tr1 ++ [Call.saGet, Call.saUpdate])
        | none =>
            (.ok,
             { st1 with serviceAccount := some { imagePullSecrets := newRefs } },
             Call.ecrFetch :: tr1 ++ [Call.saGet, Call.saUpdate])

/-- The fixed secret name from `main` (`main.go` line 145). -/
def ecrSecretName : String := "ecrsecret"

/-- `n` successive reconciliations of the same namespace, the `k`-th run
using the call outcomes `envs k`, threading the cluster state. -/
def iterateReconcile (envs : Nat → Env) (ns : KNamespace) :
    Nat → ClusterState → ClusterState
  | 0, st => st
  | n + 1, st =>
      (reconcile ecrSecretName (envs n) ns (iterateReconcile envs ns n st)).2.1

/-- An environment in which every call the handler makes succeeds: the ECR
call returns a non-empty authorization-data list and no Kubernetes call that
the control flow reaches fails. -/
def Env.allOk (env : Env) : Prop :=
  (∃ d ds, env.ecrCall = .ok (d :: ds)) ∧
  (env.secretGetErr = none → env.secretUpdateErr = none) ∧
  (env.secretGetErr ≠ none → env.secretCreateErr = none) ∧
  env.saGetErr = none ∧ env.saUpdateErr = none

/-- Strip `p` from the front of `s`: `some` of the remainder when `p` leads
`s`, else `none`. -/
def dropPre : List Char → List Char → Option (List Char)
  | [], s => some s
  | _ :: _, [] => none
  | p :: ps, c :: cs => if c = p then dropPre ps cs else none

/-- Strip `p` from the end of `s`. -/
def dropSuf (p s : List Char) : Option (List Char) :=
  (dropPre p.reverse s.reverse).map List.reverse

/-- Split `s` at the first occurrence of `delim`: `some (before, after)`
with `s = before ++ delim ++ after` and `delim` starting nowhere earlier. -/
def splitFirst (delim : List Char) : List Char → Option (List Char × List Char)
  | [] => none
  | c :: cs =>
    match dropPre delim (c :: cs) with
    | some rest => some ([], rest)
    | none =>
      match splitFirst delim cs with
      | some (a, b) => some (c :: a, b)
      | none => none

/-- The fixed text before the endpoint in the payload. -/
def payloadPre : List Char := "\x7b\"auths\":\x7b\"".data

/-- The fixed text between the endpoint and the token in the payload. -/
def payloadMid : List Char := "\":\x7b\"auth\":\"".data

/-- The fixed text after the token in the payload. -/
def payloadSuf : List Char := "\",\"email\":\"none\"\x7d\x7d\x7d".data

/-- Modelled from the spec: the repository contains no decoder, and §4.2
requires only that "decoding the produced bytes back into the same
structural shape must recover `endpoint` and `authToken` exactly".  The
structural-shape parser strips the fixed text before the endpoint and the
fixed text after the token, and splits the remainder at the first
occurrence of the fixed delimiter between endpoint and token. -/
def decodeDockerJSON (s : List Char) : Option (List Char × List Char) :=
  match dropPre payloadPre s with
  | none => none
  | some r =>
    match dropSuf payloadSuf r with
    | none => none
    | some m => splitFirst payloadMid m

/-- The process configuration collected by `parse` (`main.go` lines 28-50):
flag values, with `RefreshInterval` the `refresh-interval` integer flag
(default 60). -/
structure Config where
  kubecfg : String
  kubeMasterURL : String
  awsAccessKeyID : String
  awsSecretAccessKey : String
  awsRegion : String
  refreshInterval : Int
deriving DecidableEq, Repr

/-- The resync period (in seconds) that `main` hands to `WatchNamespaces`
(`main.go` line 152): the hardcoded `time.Duration(1)*time.Minute`,
whatever the configuration says. -/
def mainResyncPeriodSeconds (_cfg : Config) : Int := 60

/-! ### Helper lemmas -/

theorem dropPre_append (p s : List Char) : dropPre p (p ++ s) = some s := by
  induction p with
  | nil => rfl
  | cons c cs ih => simp [dropPre, ih]

theorem dropSuf_append (p s : List Char) : dropSuf p (s ++ p) = some s := by
  simp [dropSuf, List.reverse_append, dropPre_append]

theorem splitFirst_append (q : Char) (dt e t : List Char) (h : q ∉ e) :
    splitFirst (q :: dt) (e ++ (q :: dt) ++ t) = some (e, t) := by
  induction e with
  | nil =>
      have hd : dropPre (q :: dt) (q :: (dt ++ t)) = some t := by
        have hp := dropPre_append (q :: dt) t
        simpa [List.cons_append] using hp
      have hshape : ([] : List Char) ++ (q :: dt) ++ t = q :: (dt ++ t) := by
        simp
      rw [hshape]
      simp only [splitFirst, hd]
  | cons c cs ih =>
      have hc : ¬(c = q) := fun hcq => h (by simp [hcq])
      have hcs : q ∉ cs := fun hm => h (by simp [hm])
      have hshape : (c :: cs) ++ (q :: dt) ++ t = c :: (cs ++ (q :: dt) ++ t) := by
        simp
      rw [hshape]
      simp only [splitFirst, dropPre, hc, if_false, ih hcs]

theorem patchRefs_of_not_mem (x : String) (l : List String) (h : x ∉ l) :
    patchRefs x l = l ++ [x] := by
  induction l with
  | nil => rfl
  | cons r rs ih =>
      have hr : ¬(r = x) := fun hrx => h (by simp [hrx])
      have hrs : x ∉ rs := fun hm => h (by simp [hm])
      simp [patchRefs, hr, ih hrs]

theorem patchRefs_of_mem (x : String) (l : List String) (h : x ∈ l) :
    patchRefs x l = l := by
  induction l with
  | nil => cases h
  | cons r rs ih =>
      by_cases hr : r = x
      · simp [patchRefs, hr]
      · have hrs : x ∈ rs := by
          rcases List.mem_cons.mp h with h1 | h2
          · exact absurd h1.symm hr
          · exact h2
        simp [patchRefs, hr, ih hrs]

theorem encodeDockerJSON_eq (e t : List Char) :
    encodeDockerJSON e t =
      payloadPre ++ (e ++ (payloadMid ++ (t ++ payloadSuf))) := rfl

theorem decode_encode (e t : List Char) (h : '"' ∉ e) :
    decodeDockerJSON (encodeDockerJSON e t) = some (e, t) := by
  have hm : payloadMid = '"' :: ":\x7b\"auth\":\"".data := rfl
  have h1 : dropPre payloadPre (encodeDockerJSON e t)
      = some (e ++ payloadMid ++ t ++ payloadSuf) := by
    rw [encodeDockerJSON_eq, dropPre_append]
    simp [List.append_assoc]
  have h2 : dropSuf payloadSuf (e ++ payloadMid ++ t ++ payloadSuf)
      = some (e ++ payloadMid ++ t) := dropSuf_append _ _
  have h3 : splitFirst payloadMid (e ++ payloadMid ++ t) = some (e, t) := by
    rw [hm]
    exact splitFirst_append '"' _ e t h
  simp only [decodeDockerJSON, h1, h2, h3]

/-- One run of the handler on a live namespace in which every call it
reaches succeeds and the default service account exists: the run returns
nil and rewrites the service account's reference list to
`patchRefs secretName`. -/
theorem reconcile_sa_of_ok (secretName : String) (env : Env) (ns : KNamespace)
    (st : ClusterState) (sa : ServiceAccount)
    (d : AuthorizationData) (ds : List AuthorizationData)
    (hts : ns.deletionTimestamp = none)
    (hecr : env.ecrCall = .ok (d :: ds))
    (hearly : env.secretGetErr = none ∨ env.secretCreateErr = none)
    (hsg : env.saGetErr = none)
    (hsu : env.saUpdateErr = none)
    (hsa : st.serviceAccount = some sa) :
    (reconcile secretName env ns st).2.1.serviceAccount
      = some ⟨patchRefs secretName sa.imagePullSecrets⟩ ∧
    (reconcile secretName env ns st).1 = .ok ∧
    Call.saGet ∈ (reconcile secretName env ns st).2.2 ∧
    Call.saUpdate ∈ (reconcile secretName env ns st).2.2 := by
  cases hge : env.secretGetErr with
  | none =>
      cases hue : env.secretUpdateErr with
      | none =>
          simp [reconcile, hts, hecr, getECRSecret, hge, hue, hsg, hsu, hsa]
      | some u =>
          simp [reconcile, hts, hecr, getECRSecret, hge, hue, hsg, hsu, hsa]
  | some g =>
      have hce : env.secretCreateErr = none := by
        rcases hearly with h1 | h2
        · rw [hge] at h1; cases h1
        · exact h2
      simp [reconcile, hts, hecr, getECRSecret, hge, hce, hsg, hsu, hsa]

/-- An all-successful environment never takes the early-return path of the
secret step. -/
theorem env_allOk_early (env : Env) (h : env.allOk) :
    env.secretGetErr = none ∨ env.secretCreateErr = none := by
  rcases h with ⟨-, -, hgc, -, -⟩
  cases hge : env.secretGetErr with
  | none => exact Or.inl rfl
  | some g => exact Or.inr (hgc (by simp [hge]))

/-- A sample ECR authorization-data entry used to instantiate theorems. -/
def sampleAuth : AuthorizationData :=
  { authorizationToken := "QUJD".data
    proxyEndpoint := "https://123.dkr.ecr.us-east-1.amazonaws.com".data }

/-- An environment in which every call succeeds. -/
def envAllOk : Env :=
  { ecrCall := .ok [sampleAuth]
    secretGetErr := none
    secretUpdateErr := none
    secretCreateErr := none
    saGetErr := none
    saUpdateErr := none }

theorem envAllOk_allOk : envAllOk.allOk :=
  ⟨⟨sampleAuth, [], rfl⟩, fun _ => rfl, fun h => absurd rfl h, rfl, rfl⟩

/-! ### Claims -/

/-- C1: when the registry authorization call fails, `getECRSecret` gives its
caller no explicit error value — the function's return carries no error
component at all — and it *does* dereference the authorization-data list of
the nil result, so the invocation panics and the surrounding reconciliation
dies with a panic instead of an error return.  This theorem exhibits the
code's actual behaviour at any failing fetch; the claim (spec §4.1 and
defect note #1) describes the intended guard the code lacks. -/
theorem c1_fetch_failure_panics (region secretName msg : String) (env : Env)
    (ns : KNamespace) (st : ClusterState)
    (hts : ns.deletionTimestamp = none)
    (hecr : env.ecrCall = .error msg) :
    getECRSecret region (.error msg) secretName = none ∧
    reconcile secretName env ns st = (.panicked, st, [.ecrFetch]) :=
  ⟨rfl, by simp [reconcile, hts, hecr, getECRSecret]⟩

/-- Witness for C1 at a concrete failing fetch. -/
theorem c1_witness :
    getECRSecret "us-east-1" (.error "ServerException") "ecrsecret" = none ∧
    reconcile "ecrsecret"
        { ecrCall := .error "ServerException", secretGetErr := none,
          secretUpdateErr := none, secretCreateErr := none,
          saGetErr := none, saUpdateErr := none }
        { name := "team-a", deletionTimestamp := none }
        { secret := none, serviceAccount := none }
      = (.panicked, { secret := none, serviceAccount := none }, [.ecrFetch]) :=
  c1_fetch_failure_panics "us-east-1" "ecrsecret" "ServerException" _ _ _ rfl rfl

/-- C3: a namespace whose deletion timestamp is set makes the handler return
nil immediately, with zero calls to the credential fetcher, the secret store
or the service-account store, and the cluster state untouched. -/
theorem c3_skip_terminating (secretName : String) (env : Env)
    (ns : KNamespace) (st : ClusterState) (ts : String)
    (h : ns.deletionTimestamp = some ts) :
    reconcile secretName env ns st = (.ok, st, []) := by
  simp [reconcile, h]

/-- Witness for C3 on a concrete terminating namespace. -/
theorem c3_witness :
    reconcile "ecrsecret" envAllOk
        { name := "doomed", deletionTimestamp := some "2026-10-11T00:00:00Z" }
        { secret := none, serviceAccount := some { imagePullSecrets := ["x"] } }
      = (.ok,
         { secret := none, serviceAccount := some { imagePullSecrets := ["x"] } },
         []) :=
  c3_skip_terminating "ecrsecret" envAllOk _ _ "2026-10-11T00:00:00Z" rfl

/-- C9: the resync period handed to the namespace watcher is the hardcoded
one minute (60 seconds) and not the configured refresh interval: with
`refresh-interval` set to 120 the watcher still receives 60.  The claim
(spec §6) states the option must govern the period; the code ignores it —
a flagged correctness gap. -/
theorem c9_refresh_interval_ignored :
    mainResyncPeriodSeconds
        { kubecfg := "", kubeMasterURL := "", awsAccessKeyID := "",
          awsSecretAccessKey := "", awsRegion := "us-east-1",
          refreshInterval := 120 } = 60 ∧
    mainResyncPeriodSeconds
        { kubecfg := "", kubeMasterURL := "", awsAccessKeyID := "",
          awsSecretAccessKey := "", awsRegion := "us-east-1",
          refreshInterval := 120 }
      ≠ (Config.refreshInterval
          { kubecfg := "", kubeMasterURL := "", awsAccessKeyID := "",
            awsSecretAccessKey := "", awsRegion := "us-east-1",
            refreshInterval := 120 }) := by
  exact ⟨rfl, by decide⟩

/-- C2: starting from a reference list without `ecrsecret`, every sequence
of `n ≥ 1` successful reconciliations leaves the list equal to the original
list with one `ecrsecret` entry appended at the end (pre-existing entries
unchanged, in order, appended on the first run), containing exactly one
`ecrsecret` entry; in particular every run after the first leaves the list
identical. -/
theorem c2_reference_appended_exactly_once (envs : Nat → Env)
    (ns : KNamespace) (st : ClusterState) (sa : ServiceAccount)
    (hts : ns.deletionTimestamp = none)
    (hok : ∀ k, (envs k).allOk)
    (hsa : st.serviceAccount = some sa)
    (hnot : ecrSecretName ∉ sa.imagePullSecrets) :
    ∀ n, 1 ≤ n →
      (iterateReconcile envs ns n st).serviceAccount
        = some ⟨sa.imagePullSecrets ++ [ecrSecretName]⟩ ∧
      (sa.imagePullSecrets ++ [ecrSecretName]).count ecrSecretName = 1 := by
  have hcount : (sa.imagePullSecrets ++ [ecrSecretName]).count ecrSecretName = 1 := by
    rw [List.count_append, List.count_eq_zero.mpr hnot]
    simp
  intro n
  induction n with
  | zero => intro hn; exact absurd hn (by decide)
  | succ m ih =>
      intro _
      refine ⟨?_, hcount⟩
      rcases Nat.eq_zero_or_pos m with hm0 | hmpos
      · subst hm0
        obtain ⟨⟨d, ds, hecr⟩, -, -, hsg, hsu⟩ := hok 0
        have hearly := env_allOk_early _ (hok 0)
        have h1 := reconcile_sa_of_ok ecrSecretName (envs 0) ns st sa d ds
          hts hecr hearly hsg hsu hsa
        show (reconcile ecrSecretName (envs 0) ns
            (iterateReconcile envs ns 0 st)).2.1.serviceAccount = _
        rw [show iterateReconcile envs ns 0 st = st from rfl, h1.1,
          patchRefs_of_not_mem _ _ hnot]
      · have ihm := ih hmpos
        obtain ⟨⟨d, ds, hecr⟩, -, -, hsg, hsu⟩ := hok m
        have hearly := env_allOk_early _ (hok m)
        have h1 := reconcile_sa_of_ok ecrSecretName (envs m) ns
          (iterateReconcile envs ns m st) ⟨sa.imagePullSecrets ++ [ecrSecretName]⟩
          d ds hts hecr hearly hsg hsu ihm.1
        show (reconcile ecrSecretName (envs m) ns
            (iterateReconcile envs ns m st)).2.1.serviceAccount = _
        rw [h1.1, patchRefs_of_mem _ _
          (List.mem_append.mpr (Or.inr (List.mem_singleton.mpr rfl)))]

/-- Witness for C2: two successful runs on a list `["other-secret"]`. -/
theorem c2_witness :
    (iterateReconcile (fun _ => envAllOk)
        { name := "team-a", deletionTimestamp := none } 2
        { secret := none,
          serviceAccount := some { imagePullSecrets := ["other-secret"] } }).serviceAccount
      = some { imagePullSecrets := ["other-secret", "ecrsecret"] } ∧
    (["other-secret"] ++ ["ecrsecret"]).count "ecrsecret" = 1 :=
  c2_reference_appended_exactly_once (fun _ => envAllOk) _ _
    ⟨["other-secret"]⟩ rfl (fun _ => envAllOk_allOk) rfl (by decide) 2 (by decide)

/-- C10: when the reference list already holds two or more `ecrsecret`
entries, a successful run leaves the list (and hence every duplicate)
exactly as it was: the scan stops at the first match, so the
no-duplicate property is preserved but never re-established. -/
theorem c10_duplicates_left_in_place (env : Env) (ns : KNamespace)
    (st : ClusterState) (sa : ServiceAccount)
    (d : AuthorizationData) (ds : List AuthorizationData)
    (hts : ns.deletionTimestamp = none)
    (hecr : env.ecrCall = .ok (d :: ds))
    (hearly : env.secretGetErr = none ∨ env.secretCreateErr = none)
    (hsg : env.saGetErr = none)
    (hsu : env.saUpdateErr = none)
    (hsa : st.serviceAccount = some sa)
    (hdup : 2 ≤ sa.imagePullSecrets.count ecrSecretName) :
    (reconcile ecrSecretName env ns st).2.1.serviceAccount = some sa ∧
    2 ≤ (patchRefs ecrSecretName sa.imagePullSecrets).count ecrSecretName := by
  have hmem : ecrSecretName ∈ sa.imagePullSecrets := by
    by_contra hmem
    rw [List.count_eq_zero.mpr hmem] at hdup
    omega
  have h1 := reconcile_sa_of_ok ecrSecretName env ns st sa d ds
    hts hecr hearly hsg hsu hsa
  have heq := patchRefs_of_mem ecrSecretName sa.imagePullSecrets hmem
  constructor
  · rw [h1.1, heq]
  · rw [heq]; exact hdup

/-- Witness for C10 on a list with two `ecrsecret` entries. -/
theorem c10_witness :
    (reconcile "ecrsecret" envAllOk
        { name := "team-a", deletionTimestamp := none }
        { secret := none,
          serviceAccount := some { imagePullSecrets := ["ecrsecret", "ecrsecret"] } }).2.1.serviceAccount
      = some { imagePullSecrets := ["ecrsecret", "ecrsecret"] } ∧
    2 ≤ (patchRefs "ecrsecret" ["ecrsecret", "ecrsecret"]).count "ecrsecret" :=
  c10_duplicates_left_in_place envAllOk _ _ ⟨["ecrsecret", "ecrsecret"]⟩
    sampleAuth [] rfl rfl (env_allOk_early _ envAllOk_allOk) rfl rfl rfl
    (by decide)

/-- C5: when the read of the `default` service account fails, the failure
is *not* surfaced as the reconciliation's result and the reference-list
scan and update *are* attempted: the code compares the fresh error against
the earlier secret-read error and only logs it; the typed client returned a
non-nil empty object alongside the error, so the handler scans that
object's empty reference list, appends `ecrsecret`, and calls the
service-account update — the reconciliation's result is the update call's
outcome (its wrapped error, or nil on success), never the read failure.
The claim (spec §4.4 and defect note #2) describes the intended direct
error check the code lacks. -/
theorem c5_identity_fetch_failure_not_surfaced (env : Env) (ns : KNamespace)
    (st : ClusterState) (d : AuthorizationData) (ds : List AuthorizationData)
    (e : KubeErr)
    (hts : ns.deletionTimestamp = none)
    (hecr : env.ecrCall = .ok (d :: ds))
    (hearly : env.secretGetErr = none ∨ env.secretCreateErr = none)
    (hsg : env.saGetErr = some e) :
    Call.saGet ∈ (reconcile ecrSecretName env ns st).2.2 ∧
    Call.saUpdate ∈ (reconcile ecrSecretName env ns st).2.2 ∧
    (∀ ue, env.saUpdateErr = some ue →
      (reconcile ecrSecretName env ns st).1
        = .err ("Could update ServiceAccount! " ++ ue.msg)) ∧
    (env.saUpdateErr = none → (reconcile ecrSecretName env ns st).1 = .ok) := by
  cases hge : env.secretGetErr with
  | none =>
      cases hue : env.secretUpdateErr with
      | none =>
          cases hsu : env.saUpdateErr with
          | none => refine ⟨?_, ?_, ?_, ?_⟩ <;>
              simp [reconcile, getECRSecret, hts, hecr, hge, hue, hsg, hsu]
          | some ue => refine ⟨?_, ?_, ?_, ?_⟩ <;>
              simp [reconcile, getECRSecret, hts, hecr, hge, hue, hsg, hsu]
      | some u =>
          cases hsu : env.saUpdateErr with
          | none => refine ⟨?_, ?_, ?_, ?_⟩ <;>
              simp [reconcile, getECRSecret, hts, hecr, hge, hue, hsg, hsu]
          | some ue => refine ⟨?_, ?_, ?_, ?_⟩ <;>
              simp [reconcile, getECRSecret, hts, hecr, hge, hue, hsg, hsu]
  | some g =>
      have hce : env.secretCreateErr = none := by
        rcases hearly with h1 | h2
        · rw [hge] at h1; cases h1
        · exact h2
      cases hsu : env.saUpdateErr with
      | none => refine ⟨?_, ?_, ?_, ?_⟩ <;>
          simp [reconcile, getECRSecret, hts, hecr, hge, hce, hsg, hsu]
      | some ue => refine ⟨?_, ?_, ?_, ?_⟩ <;>
          simp [reconcile, getECRSecret, hts, hecr, hge, hce, hsg, hsu]

/-- Witness for C5 at a concrete failing service-account read whose
follow-on update fails client-side on the empty object name. -/
theorem c5_witness :
    Call.saGet ∈ (reconcile "ecrsecret"
        { envAllOk with saGetErr := some (.other "forbidden"),
                        saUpdateErr := some (.other "resource name may not be empty") }
        { name := "team-a", deletionTimestamp := none }
        { secret := none, serviceAccount := some { imagePullSecrets := [] } }).2.2 ∧
    Call.saUpdate ∈ (reconcile "ecrsecret"
        { envAllOk with saGetErr := some (.other "forbidden"),
                        saUpdateErr := some (.other "resource name may not be empty") }
        { name := "team-a", deletionTimestamp := none }
        { secret := none, serviceAccount := some { imagePullSecrets := [] } }).2.2 ∧
    (∀ ue, ({ envAllOk with saGetErr := some (.other "forbidden"),
                            saUpdateErr := some (KubeErr.other "resource name may not be empty") } : Env).saUpdateErr
          = some ue →
      (reconcile "ecrsecret"
          { envAllOk with saGetErr := some (.other "forbidden"),
                          saUpdateErr := some (.other "resource name may not be empty") }
          { name := "team-a", deletionTimestamp := none }
          { secret := none, serviceAccount := some { imagePullSecrets := [] } }).1
        = .err ("Could update ServiceAccount! " ++ ue.msg)) ∧
    (({ envAllOk with saGetErr := some (.other "forbidden"),
                      saUpdateErr := some (KubeErr.other "resource name may not be empty") } : Env).saUpdateErr = none →
      (reconcile "ecrsecret"
          { envAllOk with saGetErr := some (.other "forbidden"),
                          saUpdateErr := some (.other "resource name may not be empty") }
          { name := "team-a", deletionTimestamp := none }
          { secret := none, serviceAccount := some { imagePullSecrets := [] } }).1
        = .ok) :=
  c5_identity_fetch_failure_not_surfaced _ _ _ sampleAuth []
    (.other "forbidden") rfl rfl (Or.inl rfl) rfl

/-- C8 counterexample: with every call succeeding and the list already
containing `ecrsecret` — so the scan modifies nothing — the handler still
issues the service-account update call, refuting "no update call is
persisted ... an update call is issued only when the list was modified". -/
theorem c8_counterexample :
    patchRefs "ecrsecret" ["ecrsecret"] = ["ecrsecret"] ∧
    Call.saUpdate ∈ (reconcile "ecrsecret" envAllOk
        { name := "team-a", deletionTimestamp := none }
        { secret := none,
          serviceAccount := some { imagePullSecrets := ["ecrsecret"] } }).2.2 := by
  decide

/-- C8 (amended): when the list already contains `ecrsecret` the scan leaves
it unchanged, but the service-account update call is issued anyway — the
code persists unconditionally on every run that reaches the identity step. -/
theorem c8_update_called_even_when_unmodified (env : Env) (ns : KNamespace)
    (st : ClusterState) (sa : ServiceAccount)
    (d : AuthorizationData) (ds : List AuthorizationData)
    (hts : ns.deletionTimestamp = none)
    (hecr : env.ecrCall = .ok (d :: ds))
    (hearly : env.secretGetErr = none ∨ env.secretCreateErr = none)
    (hsg : env.saGetErr = none)
    (hsu : env.saUpdateErr = none)
    (hsa : st.serviceAccount = some sa)
    (hmem : ecrSecretName ∈ sa.imagePullSecrets) :
    Call.saUpdate ∈ (reconcile ecrSecretName env ns st).2.2 ∧
    (reconcile ecrSecretName env ns st).2.1.serviceAccount = some sa := by
  have h1 := reconcile_sa_of_ok ecrSecretName env ns st sa d ds
    hts hecr hearly hsg hsu hsa
  exact ⟨h1.2.2.2, by rw [h1.1, patchRefs_of_mem _ _ hmem]⟩

/-- Witness for C8's amended claim. -/
theorem c8_witness :
    Call.saUpdate ∈ (reconcile "ecrsecret" envAllOk
        { name := "team-b", deletionTimestamp := none }
        { secret := none,
          serviceAccount := some { imagePullSecrets := ["ecrsecret"] } }).2.2 ∧
    (reconcile "ecrsecret" envAllOk
        { name := "team-b", deletionTimestamp := none }
        { secret := none,
          serviceAccount := some { imagePullSecrets := ["ecrsecret"] } }).2.1.serviceAccount
      = some { imagePullSecrets := ["ecrsecret"] } :=
  c8_update_called_even_when_unmodified envAllOk _ _ ⟨["ecrsecret"]⟩
    sampleAuth [] rfl rfl (env_allOk_early _ envAllOk_allOk) rfl rfl rfl
    (by decide)

/-- An environment whose secret read fails with a non-not-found error and
whose remaining calls succeed. -/
def envGetOtherFail : Env :=
  { envAllOk with secretGetErr := some (.other "forbidden") }

/-- C6 counterexample: the secret read fails with a permission error (not a
not-found condition), yet the handler attempts the create call — and, the
create succeeding, propagates no failure at all.  This refutes "propagates a
Failure and does not attempt to create; creation is attempted only when the
read failure is specifically a not-found condition". -/
theorem c6_counterexample :
    Call.secretCreate ∈ (reconcile "ecrsecret" envGetOtherFail
        { name := "team-a", deletionTimestamp := none }
        { secret := none,
          serviceAccount := some { imagePullSecrets := [] } }).2.2 ∧
    (reconcile "ecrsecret" envGetOtherFail
        { name := "team-a", deletionTimestamp := none }
        { secret := none,
          serviceAccount := some { imagePullSecrets := [] } }).1 = .ok := by
  decide

/-- C6 (amended): the code never distinguishes the kind of the secret-read
error: on *any* read failure it attempts creation (never the update call),
and when the creation also fails it returns the read error. -/
theorem c6_create_attempted_on_any_get_failure (env : Env) (ns : KNamespace)
    (st : ClusterState) (d : AuthorizationData) (ds : List AuthorizationData)
    (g : KubeErr)
    (hts : ns.deletionTimestamp = none)
    (hecr : env.ecrCall = .ok (d :: ds))
    (hget : env.secretGetErr = some g) :
    Call.secretCreate ∈ (reconcile ecrSecretName env ns st).2.2 ∧
    Call.secretUpdate ∉ (reconcile ecrSecretName env ns st).2.2 ∧
    (∀ c, env.secretCreateErr = some c →
      reconcile ecrSecretName env ns st
        = (.err g.msg, st, [.ecrFetch, .secretGet, .secretCreate])) := by
  cases hce : env.secretCreateErr with
  | some c =>
      refine ⟨?_, ?_, ?_⟩ <;>
        simp [reconcile, getECRSecret, hts, hecr, hget, hce]
  | none =>
      cases hsu : env.saUpdateErr with
      | none =>
          refine ⟨?_, ?_, ?_⟩ <;>
            simp [reconcile, getECRSecret, hts, hecr, hget, hce, hsu]
      | some u =>
          refine ⟨?_, ?_, ?_⟩ <;>
            simp [reconcile, getECRSecret, hts, hecr, hget, hce, hsu]

/-- Witness for C6's amended claim: a not-found read followed by a failing
create returns the read error with no identity step. -/
theorem c6_witness :
    Call.secretCreate ∈ (reconcile "ecrsecret"
        { envAllOk with secretGetErr := some .notFound,
                        secretCreateErr := some (.other "quota") }
        { name := "team-a", deletionTimestamp := none }
        { secret := none, serviceAccount := some { imagePullSecrets := [] } }).2.2 ∧
    Call.secretUpdate ∉ (reconcile "ecrsecret"
        { envAllOk with secretGetErr := some .notFound,
                        secretCreateErr := some (.other "quota") }
        { name := "team-a", deletionTimestamp := none }
        { secret := none, serviceAccount := some { imagePullSecrets := [] } }).2.2 ∧
    (∀ c, ({ envAllOk with secretGetErr := some KubeErr.notFound,
                           secretCreateErr := some (.other "quota") } : Env).secretCreateErr
            = some c →
      reconcile "ecrsecret"
        { envAllOk with secretGetErr := some .notFound,
                        secretCreateErr := some (.other "quota") }
        { name := "team-a", deletionTimestamp := none }
        { secret := none, serviceAccount := some { imagePullSecrets := [] } }
      = (.err KubeErr.notFound.msg,
         { secret := none, serviceAccount := some { imagePullSecrets := [] } },
         [.ecrFetch, .secretGet, .secretCreate])) :=
  c6_create_attempted_on_any_get_failure _ _ _ sampleAuth [] .notFound
    rfl rfl rfl

/-- An environment whose secret read and secret create both fail. -/
def envGetCreateFail : Env :=
  { envAllOk with secretGetErr := some .notFound,
                  secretCreateErr := some (.other "quota") }

/-- C7 counterexample: when the create call of the secret step fails, the
handler returns immediately with the secret-read error — the identity
(service-account) step is never invoked, refuting "the identity-patching
step is still invoked, and only the identity step's result determines the
reconciliation's returned error". -/
theorem c7_counterexample :
    Call.saGet ∉ (reconcile "ecrsecret" envGetCreateFail
        { name := "team-a", deletionTimestamp := none }
        { secret := none,
          serviceAccount := some { imagePullSecrets := [] } }).2.2 ∧
    (reconcile "ecrsecret" envGetCreateFail
        { name := "team-a", deletionTimestamp := none }
        { secret := none,
          serviceAccount := some { imagePullSecrets := [] } }).1
      = .err "not found" := by
  decide

/-- C7 (amended): a failure of the *update* call leaves the identity step
invoked and the returned result identical to the all-update-success run (the
identity step alone determines it); a failure of the *create* call instead
returns the secret-read error at once, and the identity step is skipped. -/
theorem c7_partial_failure_split (env : Env) (ns : KNamespace)
    (st : ClusterState) (d : AuthorizationData) (ds : List AuthorizationData)
    (hts : ns.deletionTimestamp = none)
    (hecr : env.ecrCall = .ok (d :: ds)) :
    (env.secretGetErr = none →
      Call.saGet ∈ (reconcile ecrSecretName env ns st).2.2 ∧
      (reconcile ecrSecretName env ns st).1
        = (reconcile ecrSecretName { env with secretUpdateErr := none } ns st).1) ∧
    (∀ g c, env.secretGetErr = some g → env.secretCreateErr = some c →
      (reconcile ecrSecretName env ns st).1 = .err g.msg ∧
      Call.saGet ∉ (reconcile ecrSecretName env ns st).2.2) := by
  constructor
  · intro hget
    cases hue : env.secretUpdateErr with
    | none =>
        cases hsu : env.saUpdateErr with
        | none =>
            constructor <;>
              simp [reconcile, getECRSecret, hts, hecr, hget, hue, hsu]
        | some u2 =>
            constructor <;>
              simp [reconcile, getECRSecret, hts, hecr, hget, hue, hsu]
    | some u =>
        cases hsu : env.saUpdateErr with
        | none =>
            constructor <;>
              simp [reconcile, getECRSecret, hts, hecr, hget, hue, hsu]
        | some u2 =>
            constructor <;>
              simp [reconcile, getECRSecret, hts, hecr, hget, hue, hsu]
  · intro g c hget hce
    constructor <;>
      simp [reconcile, getECRSecret, hts, hecr, hget, hce]

/-- Witness for C7's amended claim: a failing secret update still reaches
the identity step and returns the same result as the clean run. -/
theorem c7_witness :
    (({ envAllOk with secretUpdateErr := some (.other "conflict") } : Env).secretGetErr = none →
      Call.saGet ∈ (reconcile "ecrsecret"
          { envAllOk with secretUpdateErr := some (.other "conflict") }
          { name := "team-a", deletionTimestamp := none }
          { secret := none,
            serviceAccount := some { imagePullSecrets := [] } }).2.2 ∧
      (reconcile "ecrsecret"
          { envAllOk with secretUpdateErr := some (.other "conflict") }
          { name := "team-a", deletionTimestamp := none }
          { secret := none,
            serviceAccount := some { imagePullSecrets := [] } }).1
        = (reconcile "ecrsecret"
            { { envAllOk with secretUpdateErr := some (.other "conflict") }
                with secretUpdateErr := none }
            { name := "team-a", deletionTimestamp := none }
            { secret := none,
              serviceAccount := some { imagePullSecrets := [] } }).1) ∧
    (∀ g c, ({ envAllOk with secretUpdateErr := some (.other "conflict") } : Env).secretGetErr = some g →
      ({ envAllOk with secretUpdateErr := some (.other "conflict") } : Env).secretCreateErr = some c →
      (reconcile "ecrsecret"
          { envAllOk with secretUpdateErr := some (.other "conflict") }
          { name := "team-a", deletionTimestamp := none }
          { secret := none,
            serviceAccount := some { imagePullSecrets := [] } }).1 = .err g.msg ∧
      Call.saGet ∉ (reconcile "ecrsecret"
          { envAllOk with secretUpdateErr := some (.other "conflict") }
          { name := "team-a", deletionTimestamp := none }
          { secret := none,
            serviceAccount := some { imagePullSecrets := [] } }).2.2) :=
  c7_partial_failure_split
    { envAllOk with secretUpdateErr := some (.other "conflict") }
    { name := "team-a", deletionTimestamp := none }
    { secret := none, serviceAccount := some { imagePullSecrets := [] } }
    sampleAuth [] rfl rfl

/-- An endpoint string containing the payload's own inner delimiter, on
which structural decoding cannot recover the original split. -/
def badEndpoint : List Char := "a\":\x7b\"auth\":\"b".data

/-- C4 counterexample: the claim quantifies the round-trip over *every*
endpoint and token, but for the endpoint `a":{"auth":"b` (which contains the
payload's inner delimiter) and token `c`, decoding the encoded payload does
not recover the pair: `fmt.Sprintf` performs no escaping, so the first
occurrence of the delimiter lies inside the endpoint and the decoder splits
there. -/
theorem c4_counterexample :
    decodeDockerJSON (encodeDockerJSON badEndpoint "c".data)
      ≠ some (badEndpoint, "c".data) := by
  decide

/-- C4 (amended): for every endpoint `e` and token `t` the encoded payload
is byte-for-byte the template with `e` and `t` substituted; the concrete
instance of the claim holds exactly; and decoding recovers `e` and `t`
exactly whenever `e` contains no double-quote character (real registry
endpoints never do). -/
theorem c4_payload_exact_and_guarded_roundtrip (e t : List Char) :
    encodeDockerJSON e t
      = payloadPre ++ (e ++ (payloadMid ++ (t ++ payloadSuf))) ∧
    encodeDockerJSON "https://123.dkr.ecr.us-east-1.amazonaws.com".data
        "QUJD".data
      = "\x7b\"auths\":\x7b\"https://123.dkr.ecr.us-east-1.amazonaws.com\":\x7b\"auth\":\"QUJD\",\"email\":\"none\"\x7d\x7d\x7d".data ∧
    ('"' ∉ e → decodeDockerJSON (encodeDockerJSON e t) = some (e, t)) :=
  ⟨rfl, by decide, fun h => decode_encode e t h⟩

/-- Witness for C4's amended claim at the spec's concrete endpoint/token. -/
theorem c4_witness :
    '"' ∉ "https://123.dkr.ecr.us-east-1.amazonaws.com".data ∧
    decodeDockerJSON
        (encodeDockerJSON "https://123.dkr.ecr.us-east-1.amazonaws.com".data
          "QUJD".data)
      = some ("https://123.dkr.ecr.us-east-1.amazonaws.com".data,
              "QUJD".data) :=
  ⟨by decide,
   (c4_payload_exact_and_guarded_roundtrip
      "https://123.dkr.ecr.us-east-1.amazonaws.com".data "QUJD".data).2.2
     (by decide)⟩
